import Mathlib

/-!
The dump manager of openpower-debug-collector: `Manager::createDump` and the completion
`callback`.

A shallow embedding of `src/dump/dump_manager.cpp`.

* `createDump` is the body of `Manager::createDump`, cut into the four consecutive
  segments of the source: `validate` (lines 148-270), `capture` (272-317),
  `parseId` (319-330) and `launch` (332-385).
* `callback` is the `sd_event` child handler (lines 89-136).

Every C++ exception that can leave the function is a constructor of `Fault`, the
outside world (D-Bus peers, `fork`, `execl`, `sd_event_add_child`) is an explicit
oracle `Env`, and every outward action is recorded, in program order, in a list of
`Effect`s. Journal lines written with `log<level>` are not recorded; error-log
entries created with `report<>` and `commit<>` are. The helpers
`util::requestBMCDump`, `util::prepareCollection` and `sdbusplus::bus::new_system`,
which the source calls outside any handler, appear as effects that return normally.

Constants that live in headers outside the translated file (`sbe_consts.hpp`,
`config.h`) are fields of `Config`.
-/

namespace openpower.dump

/-! ## Data model -/

/-- Value of one request parameter, `std::variant<std::string, uint64_t>`.
The payload of `u64` is a 64-bit unsigned value. -/
inductive ParamValue
  | str (s : String)
  | u64 (n : Nat)
  deriving DecidableEq, Repr

/-- Request parameters, `util::DumpCreateParams`: a map from parameter name to value.
`params.find(k)` is `List.lookup k params`. -/
abbrev DumpCreateParams := List (String × ParamValue)

/-- The enumeration `Create::CreateParameters` of the generated D-Bus binding. -/
inductive CreateParameters
  | DumpType
  | ErrorLogId
  | FailingUnitId
  deriving DecidableEq, Repr

/-- The key under which a parameter is stored, `convertCreateParametersToString`.
The generated binding is not part of the translated file; it renders an enumerator
as its fully qualified D-Bus name. -/
def convertCreateParametersToString : CreateParameters → String
  | .DumpType => "com.ibm.Dump.Create.CreateParameters.DumpType"
  | .ErrorLogId => "com.ibm.Dump.Create.CreateParameters.ErrorLogId"
  | .FailingUnitId => "com.ibm.Dump.Create.CreateParameters.FailingUnitId"

def DUMP_CREATE_IFACE : String := "xyz.openbmc_project.Dump.Create"
def ERROR_DUMP_DISABLED : String := "xyz.openbmc_project.Dump.Create.Error.Disabled"
def ERROR_DUMP_QUOTA_EXCEEDED : String := "xyz.openbmc_project.Dump.Create.Error.QuotaExceeded"
def ERROR_DUMP_NOT_ALLOWED : String := "xyz.openbmc_project.Common.Error.NotAllowed"
def OP_SBE_FILES_PATH : String := "plat_dump"
def MAX_ERROR_LOG_ID : Nat := 0xFFFFFFFF
def INVALID_FAILING_UNIT : Nat := 0xFF

/-- Maximum 32 processors are possible in a system. -/
def MAX_FAILING_UNIT : Nat := 0x20

/-- The three `DumpType` tokens compared against in lines 208-216. -/
def TOKEN_HOSTBOOT : String := "com.ibm.Dump.Create.DumpType.Hostboot"
def TOKEN_HARDWARE : String := "com.ibm.Dump.Create.DumpType.Hardware"
def TOKEN_SBE : String := "com.ibm.Dump.Create.DumpType.SBE"

/-- Basic info about one dump type (`struct DumpTypeInfo`). -/
structure DumpTypeInfo where
  dumpPath : String
  dumpCollectionPath : String
  deriving DecidableEq, Repr

/-- Constants of `sbe_consts.hpp` (the three type codes, stored by the source in
`uint8_t` variables and map keys) and of `config.h` (the six paths). -/
structure Config where
  SBE_DUMP_TYPE_HOSTBOOT : Nat
  SBE_DUMP_TYPE_HARDWARE : Nat
  SBE_DUMP_TYPE_SBE : Nat
  HB_DUMP_DBUS_OBJPATH : String
  HB_DUMP_COLLECTION_PATH : String
  HW_DUMP_DBUS_OBJPATH : String
  HW_DUMP_COLLECTION_PATH : String
  SBE_DUMP_DBUS_OBJPATH : String
  SBE_DUMP_COLLECTION_PATH : String

/-- The type codes fit `uint8_t` and are pairwise different, as the three-entry
initialiser of the `std::map<uint8_t, DumpTypeInfo>` presupposes. -/
def Config.WellFormed (cfg : Config) : Prop :=
  cfg.SBE_DUMP_TYPE_HOSTBOOT < 256 ∧ cfg.SBE_DUMP_TYPE_HARDWARE < 256 ∧
  cfg.SBE_DUMP_TYPE_SBE < 256 ∧
  cfg.SBE_DUMP_TYPE_HOSTBOOT ≠ cfg.SBE_DUMP_TYPE_HARDWARE ∧
  cfg.SBE_DUMP_TYPE_HOSTBOOT ≠ cfg.SBE_DUMP_TYPE_SBE ∧
  cfg.SBE_DUMP_TYPE_HARDWARE ≠ cfg.SBE_DUMP_TYPE_SBE

instance (cfg : Config) : Decidable cfg.WellFormed := by
  unfold Config.WellFormed
  infer_instance

/-- Map of dump type to the basic info of the dumps (lines 68-74). Keys are `uint8_t`;
an initialiser list keeps the first entry of a repeated key, as `List.lookup` does. -/
def dumpInfo (cfg : Config) : List (Nat × DumpTypeInfo) :=
  [(cfg.SBE_DUMP_TYPE_HOSTBOOT % 256, ⟨cfg.HB_DUMP_DBUS_OBJPATH, cfg.HB_DUMP_COLLECTION_PATH⟩),
   (cfg.SBE_DUMP_TYPE_HARDWARE % 256, ⟨cfg.HW_DUMP_DBUS_OBJPATH, cfg.HW_DUMP_COLLECTION_PATH⟩),
   (cfg.SBE_DUMP_TYPE_SBE % 256, ⟨cfg.SBE_DUMP_DBUS_OBJPATH, cfg.SBE_DUMP_COLLECTION_PATH⟩)]

/-- The expression `dumpInfo[type]`: `operator[]` yields a default-constructed entry
(two empty strings) for a key that is not in the map. -/
def dumpInfoAt (cfg : Config) (type : Nat) : DumpTypeInfo :=
  match (dumpInfo cfg).lookup type with
  | some info => info
  | none => ⟨"", ""⟩

/-- Data kept for notifying the status of a dump (`struct DumpData`):
`id` is a `uint32_t`, `type` a `uint8_t`. -/
structure DumpData where
  id : Nat
  type : Nat
  pathStr : String
  deriving DecidableEq, Repr

/-- Exceptions that can leave `Manager::createDump`. -/
inductive Fault
  /-- The fault `Common::Error::InvalidArgument` with `ARGUMENT_NAME` and `ARGUMENT_VALUE`. -/
  | invalidArgument (name value : String)
  /-- The fault `Dump::Create::Error::Disabled`. -/
  | disabled
  /-- The fault `Dump::Create::Error::QuotaExceeded` with its `REASON`. -/
  | quotaExceeded (reason : String)
  /-- The fault `Common::Error::NotAllowed` with its `REASON`. -/
  | notAllowed (reason : String)
  /-- The fault `Common::Error::InternalFailure`. -/
  | internalFailure
  /-- An `sdbusplus::exception::SdBusError` with its name and description. -/
  | sdBusError (name description : String)
  /-- The `std::bad_variant_access` of a `std::get` on the wrong alternative. -/
  | badVariantAccess
  /-- The `std::invalid_argument` of `std::stoi`. -/
  | stdInvalidArgument
  /-- The `std::out_of_range` of `std::stoi`. -/
  | stdOutOfRange
  deriving DecidableEq, Repr

/-- Failures raised by an outbound bus operation: an `SdBusError` (name, description)
or an `InternalFailure`. -/
inductive ExtFault
  | sdBusError (name description : String)
  | internalFailure
  deriving DecidableEq, Repr

/-- Arguments appended to an outbound method call. -/
inductive BusArg
  | u32 (n : Nat)
  | u64 (n : Nat)
  | createParams (p : DumpCreateParams)
  deriving DecidableEq, Repr

/-- Outward actions, recorded in program order. -/
inductive Effect
  /-- The call `report<E>(...)`: an error-log entry is committed, execution continues. -/
  | report (f : Fault)
  /-- The call `commit<InternalFailure>()` in the callback. -/
  | commit (f : Fault)
  /-- The call `sdbusplus::bus::new_system()`. -/
  | newSystemBus
  /-- The call `util::getService(bus, interface, path)`: the object-mapper lookup. -/
  | getService (interface path : String)
  /-- The call `bus.call(method)` or `bus.call_noreply(method)` on a method call built with
  `new_method_call(service, path, interface, member)` and the appended arguments. -/
  | methodCall (service path interface member : String) (args : List BusArg)
  /-- The call `util::setProperty(interface, property, path, bus, value)`. -/
  | setProperty (interface property path value : String)
  /-- The call `util::requestBMCDump()`. -/
  | requestBMCDump
  /-- The call `fork()`. -/
  | fork
  /-- The call `util::prepareCollection(dumpPath, elogId)`. -/
  | prepareCollection (dumpPath elogId : String)
  /-- The call `execl(program, argv0, argv1, ..., (char*)0)`. -/
  | execl (program : String) (argv : List String)
  /-- The call `sd_event_add_child(eventLoop, nullptr, pid, WEXITED | WSTOPPED, callback, data)`. -/
  | addChild (pid : Int) (data : DumpData)
  /-- The statement `delete dumpData`. -/
  | delete (data : DumpData)
  deriving DecidableEq, Repr

/-- How one execution of `Manager::createDump` ends. -/
inductive Outcome
  /-- Parent process: `return newDumpPath`. -/
  | returned (path : String)
  /-- An exception leaves the function. -/
  | threw (f : Fault)
  /-- Child process: `execl` replaced the program image. -/
  | execed
  /-- Child process: `execl` failed, `std::exit(code)`. -/
  | exited (code : Nat)
  deriving DecidableEq, Repr

/-- The outside world as seen by one execution. -/
structure Env where
  /-- Result of `util::getService(bus, interface, path)`. -/
  getService : String → String → Except ExtFault String
  /-- Result of `bus.call` on `service path interface member`, read as an object path. -/
  call : String → String → String → String → Except ExtFault String
  /-- Result of `bus.call_noreply` on `service path interface member`. -/
  call_noreply : String → String → String → String → Except ExtFault Unit
  /-- Result of `util::setProperty(interface, property, path, bus, value)`. -/
  setProperty : String → String → String → String → Except ExtFault Unit
  /-- Value returned by `fork()`: `0` in the child, negative on failure, else the pid. -/
  fork : Int
  /-- Whether `execl` replaces the image (`true`) or returns with an error. -/
  execl : Bool
  /-- Value returned by `sd_event_add_child`. -/
  sd_event_add_child : Int

/-! ## Library functions used by the source -/

/-- The stream insertion `ss << std::setw(8) << std::setfill('0') << std::hex << n`:
the lowercase hexadecimal digits of `n`, right-adjusted in a field of width 8 filled
with `'0'`; a longer rendering is not truncated. -/
def setw8hex (n : Nat) : String :=
  let digits := Nat.toDigits 16 n
  (List.replicate (8 - digits.length) '0' ++ digits).asString

/-- The call `std::string::rfind("/")` on a character sequence, with `npos` as `none`:
the index of the last occurrence of `c`. -/
def rfind (c : Char) : List Char → Option Nat
  | [] => none
  | x :: xs =>
    match rfind c xs with
    | some i => some (i + 1)
    | none => if x = c then some 0 else none

/-- Whitespace in the C locale (`isspace`). -/
def isspace (c : Char) : Bool :=
  c = ' ' || c = '\t' || c = '\n' || c = '\x0b' || c = '\x0c' || c = '\r'

/-- Value of a run of decimal digits. -/
def decimalValue (ds : List Char) : Nat :=
  ds.foldl (fun a c => 10 * a + (c.toNat - 48)) 0

/-- The optional sign read by `std::stoi`: whether it is a minus, and the rest. -/
def readSign : List Char → Bool × List Char
  | '-' :: r => (true, r)
  | '+' :: r => (false, r)
  | s => (false, s)

/-- The conversion `std::stoi(s)` (base 10): leading whitespace is skipped, one optional
sign is read, then the longest run of decimal digits; what follows the digits is
ignored. No digit raises `std::invalid_argument`, a value outside `int` raises
`std::out_of_range`. -/
def stoi (s : List Char) : Except Fault Int :=
  let signed := readSign (s.dropWhile isspace)
  let ds := signed.2.takeWhile Char.isDigit
  if ds = [] then .error .stdInvalidArgument
  else
    let v : Int := if signed.1 then -(decimalValue ds : Int) else (decimalValue ds : Int)
    if v < -2147483648 ∨ 2147483647 < v then .error .stdOutOfRange else .ok v

/-- The operator `std::filesystem::path::operator/=` on POSIX: an absolute right-hand
side replaces the path; otherwise a separator is inserted when the left-hand side has a
filename (is non-empty and does not end in a separator). -/
def pathAppend (lhs p : String) : String :=
  if p.data.head? = some '/' then p
  else if lhs.data = [] ∨ lhs.data.getLast? = some '/' then lhs ++ p
  else lhs ++ "/" ++ p

/-! ## `Manager::createDump` -/

/-- The locals that survive parameter validation. -/
structure Request where
  elogId : String
  type : Nat
  failingUnit : Nat
  deriving DecidableEq, Repr

/-- Lines 169-185: `std::get<uint64_t>` on the error log id; a value of the other
alternative is reported and leaves `errorId` at `0`. -/
def readErrorId : ParamValue → Nat × List Effect
  | .u64 n => (n, [])
  | .str _ => (0, [.report (.invalidArgument "ERROR_LOG_ID" "INVALID INPUT")])

/-- Lines 187-198: an id above `MAX_ERROR_LOG_ID` is reported; `errorId` is not
assigned in this branch. -/
def checkErrorId (errorId : Nat) : List Effect :=
  if errorId > MAX_ERROR_LOG_ID then
    [.report (.invalidArgument "ERROR_LOG_ID" (toString errorId))]
  else []

/-- Lines 205-227: the type code of a `DumpType` token, `none` for the final `else`. -/
def resolveType (cfg : Config) (dumpType : String) : Option Nat :=
  if dumpType = TOKEN_HOSTBOOT then some (cfg.SBE_DUMP_TYPE_HOSTBOOT % 256)
  else if dumpType = TOKEN_HARDWARE then some (cfg.SBE_DUMP_TYPE_HARDWARE % 256)
  else if dumpType = TOKEN_SBE then some (cfg.SBE_DUMP_TYPE_SBE % 256)
  else none

/-- Lines 148-270 of `Manager::createDump`: parameter validation. -/
def validate (cfg : Config) (params : DumpCreateParams) : List Effect × Except Fault Request :=
  match params.lookup (convertCreateParametersToString .DumpType) with
  | none => ([], .error (.invalidArgument "DUMP_TYPE" "MISSING"))
  | some (.u64 _) => ([], .error .badVariantAccess)
  | some (.str dumpType) =>
    match params.lookup (convertCreateParametersToString .ErrorLogId) with
    | none => ([], .error (.invalidArgument "ERROR_LOG_ID" "MISSING"))
    | some ev =>
      let errorId := (readErrorId ev).1
      let fx := (readErrorId ev).2 ++ checkErrorId errorId
      let elogId := setw8hex errorId
      match resolveType cfg dumpType with
      | none => (fx, .error (.invalidArgument "DUMP_TYPE" dumpType))
      | some type =>
        if type = cfg.SBE_DUMP_TYPE_HARDWARE ∨ type = cfg.SBE_DUMP_TYPE_SBE then
          match params.lookup (convertCreateParametersToString .FailingUnitId) with
          | none => (fx, .error (.invalidArgument "FAILING_UNIT_ID" "MISSING"))
          | some (.str _) => (fx, .error (.invalidArgument "FAILING_UNIT_ID" "INVALID INPUT"))
          | some (.u64 failingUnit) =>
            if failingUnit > MAX_FAILING_UNIT then
              (fx, .error (.invalidArgument "FAILING_UNIT_ID" (toString failingUnit)))
            else (fx, .ok ⟨elogId, type, failingUnit⟩)
        else (fx, .ok ⟨elogId, type, INVALID_FAILING_UNIT⟩)

/-- Lines 287-317: the handler of `SdBusError`. Every `elog` throws, so the three tests
act as a chain; the test `e.name() == ERROR_...` is rendered as equality of the two
names. An `InternalFailure` raised inside the `try` block is no `SdBusError` and passes
through. -/
def translateBusError : ExtFault → Fault
  | .internalFailure => .internalFailure
  | .sdBusError name description =>
    if name = ERROR_DUMP_DISABLED then .disabled
    else if name = ERROR_DUMP_QUOTA_EXCEEDED then .quotaExceeded description
    else if name = ERROR_DUMP_NOT_ALLOWED then .notAllowed description
    else .sdBusError name description

/-- Lines 272-317 of `Manager::createDump`: the `CreateDump` call on the dump manager
of the resolved type, with empty create parameters. -/
def capture (cfg : Config) (env : Env) (type : Nat) : List Effect × Except Fault String :=
  let path := (dumpInfoAt cfg type).dumpPath
  match env.getService DUMP_CREATE_IFACE path with
  | .error e => ([.getService DUMP_CREATE_IFACE path], .error (translateBusError e))
  | .ok dumpManager =>
    let fx := [Effect.getService DUMP_CREATE_IFACE path,
               Effect.methodCall dumpManager path DUMP_CREATE_IFACE "CreateDump" [.createParams []]]
    match env.call dumpManager path DUMP_CREATE_IFACE "CreateDump" with
    | .error e => (fx, .error (translateBusError e))
    | .ok newDumpPath => (fx, .ok newDumpPath)

/-- Lines 319-330 of `Manager::createDump`: the id is the text after the last `/`. -/
def parseId (pathStr : String) : Except Fault Int :=
  match rfind '/' pathStr.data with
  | none => .error .internalFailure
  | some pos => stoi (pathStr.data.drop (pos + 1))

/-- The argument vector handed to `execl` (lines 346-349), `argv[0]` included. -/
def collectorArgv (type : Nat) (id : Int) (dumpPath : String) (failingUnit : Nat) : List String :=
  ["dump-collect", "--type", toString type, "--id", toString id, "--path", dumpPath,
   "--failingunit", toString failingUnit]

/-- The collection directory of lines 341-343. -/
def collectionDir (cfg : Config) (type : Nat) (id : Int) : String :=
  pathAppend (pathAppend (dumpInfoAt cfg type).dumpCollectionPath (toString id)) OP_SBE_FILES_PATH

/-- Lines 332-385 of `Manager::createDump`: BMC dump request, `fork`, and either the
child (prepare, `execl`, exit) or the parent (register the child with the event loop). -/
def launch (cfg : Config) (env : Env) (req : Request) (newDumpPath : String) (id : Int) :
    List Effect × Outcome :=
  if env.fork = 0 then
    let dumpPath := collectionDir cfg req.type id
    ([.requestBMCDump, .fork, .prepareCollection dumpPath req.elogId,
      .execl "/usr/bin/dump-collect" (collectorArgv req.type id dumpPath req.failingUnit)],
     if env.execl then .execed else .exited 1)
  else if env.fork < 0 then
    ([.requestBMCDump, .fork], .threw .internalFailure)
  else
    let data : DumpData := ⟨(id % 4294967296).toNat, req.type, newDumpPath⟩
    ([.requestBMCDump, .fork, .addChild env.fork data],
     if env.sd_event_add_child < 0 then .threw .internalFailure else .returned newDumpPath)

/-- The method `Manager::createDump(params)`: the effects performed and how it ends. -/
def createDump (cfg : Config) (env : Env) (params : DumpCreateParams) : List Effect × Outcome :=
  match validate cfg params with
  | (fx1, .error f) => (fx1, .threw f)
  | (fx1, .ok req) =>
    match capture cfg env req.type with
    | (fx2, .error f) => (fx1 ++ fx2, .threw f)
    | (fx2, .ok newDumpPath) =>
      match parseId newDumpPath with
      | .error f => (fx1 ++ fx2, .threw f)
      | .ok id =>
        let r := launch cfg env req newDumpPath id
        (fx1 ++ fx2 ++ r.1, r.2)

/-! ## The completion callback -/

/-- Lowercase hexadecimal digit of a value below 16. -/
def hexChar (d : Nat) : Char := Nat.digitChar d

/-- Reference rendering of the specification: the 8-character, zero-padded, lowercase
hexadecimal string of `n`, most significant digit first. -/
def hex8 (n : Nat) : String :=
  ([7, 6, 5, 4, 3, 2, 1, 0].map (fun i => hexChar (n / 16 ^ i % 16))).asString

/-- Value of one hexadecimal digit character (`0` for any other character). -/
def hexCharValue (c : Char) : Nat :=
  if c.isDigit then c.toNat - 48
  else if 'a' ≤ c ∧ c ≤ 'f' then c.toNat - 87
  else 0

/-- Value of a string read as a hexadecimal numeral. -/
def hexValue (s : String) : Nat :=
  s.data.foldl (fun a c => 16 * a + hexCharValue c) 0

/-- A character of the class `[0-9a-f]`. -/
def isLowerHex (c : Char) : Bool :=
  c.isDigit || ('a' ≤ c && c ≤ 'f')

/-- The `k` least significant hexadecimal digits of `n`, most significant first. -/
def fixedHex : Nat → Nat → List Char
  | 0, _ => []
  | k + 1, n => fixedHex k (n / 16) ++ [Nat.digitChar (n % 16)]

/-- The effect is one of the four side effects of a dump request: capture call, BMC
dump request, `fork`, or child registration. -/
def Effect.isSideEffect : Effect → Bool
  | .methodCall _ _ _ _ _ => true
  | .requestBMCDump => true
  | .fork => true
  | .addChild _ _ => true
  | _ => false

/-! ## A concrete configuration and concrete requests -/

/-- A configuration with the type codes and paths of a typical build. -/
def exampleConfig : Config :=
  { SBE_DUMP_TYPE_HOSTBOOT := 5, SBE_DUMP_TYPE_HARDWARE := 1, SBE_DUMP_TYPE_SBE := 10,
    HB_DUMP_DBUS_OBJPATH := "/xyz/openbmc_project/dump/hostboot",
    HB_DUMP_COLLECTION_PATH := "/var/lib/phosphor-debug-collector/hostbootdump",
    HW_DUMP_DBUS_OBJPATH := "/xyz/openbmc_project/dump/hardware",
    HW_DUMP_COLLECTION_PATH := "/var/lib/phosphor-debug-collector/hardwaredump",
    SBE_DUMP_DBUS_OBJPATH := "/xyz/openbmc_project/dump/sbe",
    SBE_DUMP_COLLECTION_PATH := "/var/lib/phosphor-debug-collector/sbedump" }

/-- An outside world in which every bus operation succeeds, the capture manager answers
with `identity`, and `fork` returns `pid`. -/
def exampleEnv (identity : String) (pid : Int) : Env :=
  { getService := fun _ _ => .ok "xyz.openbmc_project.Dump.Manager",
    call := fun _ _ _ _ => .ok identity,
    call_noreply := fun _ _ _ _ => .ok (),
    setProperty := fun _ _ _ _ => .ok (),
    fork := pid, execl := true, sd_event_add_child := 0 }

/-- The request `DumpType = Hardware, ErrorLogId = errorLogId, FailingUnitId = unit`. -/
def hardwareRequest (errorLogId : ParamValue) (unit : ParamValue) : DumpCreateParams :=
  [(convertCreateParametersToString .DumpType, .str TOKEN_HARDWARE),
   (convertCreateParametersToString .ErrorLogId, errorLogId),
   (convertCreateParametersToString .FailingUnitId, unit)]

/-- The identity `/xyz/openbmc_project/dump/hardware/entry/<segment>`. -/
def hardwareEntry (segment : String) : String :=
  "/xyz/openbmc_project/dump/hardware/entry/" ++ segment

/-! ## Lemmas on the validation segment -/

theorem validate_dumpType_absent (cfg : Config) (params : DumpCreateParams)
    (h : params.lookup (convertCreateParametersToString .DumpType) = none) :
    validate cfg params = ([], .error (.invalidArgument "DUMP_TYPE" "MISSING")) := by
  simp [validate, h]

theorem validate_dumpType_u64 (cfg : Config) (params : DumpCreateParams) (n : Nat)
    (h : params.lookup (convertCreateParametersToString .DumpType) = some (.u64 n)) :
    validate cfg params = ([], .error .badVariantAccess) := by
  simp [validate, h]

theorem validate_errorLogId_absent (cfg : Config) (params : DumpCreateParams) (s : String)
    (h : params.lookup (convertCreateParametersToString .DumpType) = some (.str s))
    (he : params.lookup (convertCreateParametersToString .ErrorLogId) = none) :
    validate cfg params = ([], .error (.invalidArgument "ERROR_LOG_ID" "MISSING")) := by
  simp [validate, h, he]

theorem validate_unknown_token (cfg : Config) (params : DumpCreateParams) (s : String)
    (ev : ParamValue)
    (h : params.lookup (convertCreateParametersToString .DumpType) = some (.str s))
    (he : params.lookup (convertCreateParametersToString .ErrorLogId) = some ev)
    (hs : resolveType cfg s = none) :
    validate cfg params =
      ((readErrorId ev).2 ++ checkErrorId (readErrorId ev).1,
       .error (.invalidArgument "DUMP_TYPE" s)) := by
  simp [validate, h, he, hs]

/-- Validation of a request whose type needs a failing unit. -/
theorem validate_with_unit (cfg : Config) (params : DumpCreateParams) (s : String)
    (ev : ParamValue) (t : Nat)
    (h : params.lookup (convertCreateParametersToString .DumpType) = some (.str s))
    (he : params.lookup (convertCreateParametersToString .ErrorLogId) = some ev)
    (hs : resolveType cfg s = some t)
    (ht : t = cfg.SBE_DUMP_TYPE_HARDWARE ∨ t = cfg.SBE_DUMP_TYPE_SBE) :
    validate cfg params =
      ((readErrorId ev).2 ++ checkErrorId (readErrorId ev).1,
       match params.lookup (convertCreateParametersToString .FailingUnitId) with
       | none => .error (.invalidArgument "FAILING_UNIT_ID" "MISSING")
       | some (.str _) => .error (.invalidArgument "FAILING_UNIT_ID" "INVALID INPUT")
       | some (.u64 failingUnit) =>
         if failingUnit > MAX_FAILING_UNIT then
           .error (.invalidArgument "FAILING_UNIT_ID" (toString failingUnit))
         else .ok ⟨setw8hex (readErrorId ev).1, t, failingUnit⟩) := by
  simp only [validate, h, he, hs, ht, if_true]
  cases hf : params.lookup (convertCreateParametersToString .FailingUnitId) with
  | none => rfl
  | some v =>
    cases v with
    | str _ => rfl
    | u64 n => by_cases hn : n > MAX_FAILING_UNIT <;> simp [hn]

/-- Validation of a request whose type needs no failing unit. -/
theorem validate_without_unit (cfg : Config) (params : DumpCreateParams) (s : String)
    (ev : ParamValue) (t : Nat)
    (h : params.lookup (convertCreateParametersToString .DumpType) = some (.str s))
    (he : params.lookup (convertCreateParametersToString .ErrorLogId) = some ev)
    (hs : resolveType cfg s = some t)
    (ht : ¬ (t = cfg.SBE_DUMP_TYPE_HARDWARE ∨ t = cfg.SBE_DUMP_TYPE_SBE)) :
    validate cfg params =
      ((readErrorId ev).2 ++ checkErrorId (readErrorId ev).1,
       .ok ⟨setw8hex (readErrorId ev).1, t, INVALID_FAILING_UNIT⟩) := by
  simp only [validate, h, he, hs, ht, if_false]

/-- Validation only writes error-log entries. -/
theorem validate_effects (cfg : Config) (params : DumpCreateParams) :
    ∀ e ∈ (validate cfg params).1, ∃ f, e = .report f := by
  have hfx : ∀ ev : ParamValue,
      ∀ e ∈ (readErrorId ev).2 ++ checkErrorId (readErrorId ev).1, ∃ f, e = Effect.report f := by
    intro ev e he
    rcases List.mem_append.mp he with h1 | h2
    · cases ev <;> simp [readErrorId] at h1
      exact ⟨_, h1⟩
    · unfold checkErrorId at h2
      split at h2
      · simp at h2; exact ⟨_, h2⟩
      · simp at h2
  unfold validate
  split
  · simp
  · simp
  · split
    · simp
    · split
      · exact hfx _
      · split
        · split
          · exact hfx _
          · exact hfx _
          · split <;> exact hfx _
        · exact hfx _

/-! ## Lemmas on the capture segment and on the whole function -/

/-- The bus-error handler never produces an `InvalidArgument`. -/
theorem translateBusError_ne_invalidArgument (e : ExtFault) (name value : String) :
    translateBusError e ≠ .invalidArgument name value := by
  cases e with
  | internalFailure => simp [translateBusError]
  | sdBusError n d =>
    simp only [translateBusError]
    split_ifs <;> simp

/-- A failure of the capture segment is never an `InvalidArgument`. -/
theorem capture_ne_invalidArgument (cfg : Config) (env : Env) (type : Nat)
    (name value : String) :
    (capture cfg env type).2 ≠ .error (.invalidArgument name value) := by
  cases hs : env.getService DUMP_CREATE_IFACE (dumpInfoAt cfg type).dumpPath with
  | error x =>
    simpa [capture, hs] using translateBusError_ne_invalidArgument x name value
  | ok svc =>
    cases hc : env.call svc (dumpInfoAt cfg type).dumpPath DUMP_CREATE_IFACE "CreateDump" with
    | error x => simpa [capture, hs, hc] using translateBusError_ne_invalidArgument x name value
    | ok ident => simp [capture, hs, hc]

/-- The capture segment when lookup and call succeed. -/
theorem capture_ok (cfg : Config) (env : Env) (type : Nat) (svc ident : String)
    (hs : env.getService DUMP_CREATE_IFACE (dumpInfoAt cfg type).dumpPath = .ok svc)
    (hc : env.call svc (dumpInfoAt cfg type).dumpPath DUMP_CREATE_IFACE "CreateDump" = .ok ident) :
    capture cfg env type =
      ([.getService DUMP_CREATE_IFACE (dumpInfoAt cfg type).dumpPath,
        .methodCall svc (dumpInfoAt cfg type).dumpPath DUMP_CREATE_IFACE "CreateDump"
          [.createParams []]], .ok ident) := by
  simp [capture, hs, hc]

/-- The conversion `std::stoi` raises only its two own exceptions. -/
theorem stoi_error (s : List Char) (f : Fault) (h : stoi s = .error f) :
    f = .stdInvalidArgument ∨ f = .stdOutOfRange := by
  unfold stoi at h
  simp only at h
  split_ifs at h <;> cases h <;> simp

/-- A value returned by `std::stoi` fits `int`. -/
theorem stoi_range (s : List Char) (v : Int) (h : stoi s = .ok v) :
    -2147483648 ≤ v ∧ v ≤ 2147483647 := by
  unfold stoi at h
  simp only at h
  split_ifs at h <;> cases h <;> omega

/-- A failure of the id extraction is never an `InvalidArgument`. -/
theorem parseId_ne_invalidArgument (p : String) (name value : String) :
    parseId p ≠ .error (.invalidArgument name value) := by
  unfold parseId
  split
  · simp
  · intro h
    rcases stoi_error _ _ h with h1 | h1 <;> cases h1

/-- A failure of the launch segment is an `InternalFailure`. -/
theorem launch_threw (cfg : Config) (env : Env) (req : Request) (p : String) (id : Int)
    (f : Fault) (h : (launch cfg env req p id).2 = .threw f) : f = .internalFailure := by
  unfold launch at h
  split_ifs at h <;> simp at h <;> exact h.symm

/-- The function fails in validation exactly as the validation segment fails. -/
theorem createDump_of_validate_error (cfg : Config) (env : Env) (params : DumpCreateParams)
    (fx : List Effect) (f : Fault) (h : validate cfg params = (fx, .error f)) :
    createDump cfg env params = (fx, .threw f) := by
  simp [createDump, h]

/-- The function after a successful validation, capture and id extraction. -/
theorem createDump_of_launch (cfg : Config) (env : Env) (params : DumpCreateParams)
    (fx1 fx2 : List Effect) (req : Request) (ident : String) (id : Int)
    (hv : validate cfg params = (fx1, .ok req))
    (hc : capture cfg env req.type = (fx2, .ok ident))
    (hp : parseId ident = .ok id) :
    createDump cfg env params =
      (fx1 ++ fx2 ++ (launch cfg env req ident id).1, (launch cfg env req ident id).2) := by
  simp [createDump, hv, hc, hp]

/-- The function when the capture segment fails. -/
theorem createDump_of_capture_error (cfg : Config) (env : Env) (params : DumpCreateParams)
    (fx1 fx2 : List Effect) (req : Request) (f : Fault)
    (hv : validate cfg params = (fx1, .ok req))
    (hc : capture cfg env req.type = (fx2, .error f)) :
    createDump cfg env params = (fx1 ++ fx2, .threw f) := by
  simp [createDump, hv, hc]

/-- The function when the id extraction fails. -/
theorem createDump_of_parseId_error (cfg : Config) (env : Env) (params : DumpCreateParams)
    (fx1 fx2 : List Effect) (req : Request) (ident : String) (f : Fault)
    (hv : validate cfg params = (fx1, .ok req))
    (hc : capture cfg env req.type = (fx2, .ok ident))
    (hp : parseId ident = .error f) :
    createDump cfg env params = (fx1 ++ fx2, .threw f) := by
  simp [createDump, hv, hc, hp]

/-- Once validation has passed, the function cannot fail with `InvalidArgument`. -/
theorem createDump_valid_ne_invalidArgument (cfg : Config) (env : Env)
    (params : DumpCreateParams) (fx1 : List Effect) (req : Request)
    (hv : validate cfg params = (fx1, .ok req)) (name value : String) :
    (createDump cfg env params).2 ≠ .threw (.invalidArgument name value) := by
  rcases hc : capture cfg env req.type with ⟨fx2, r⟩
  cases r with
  | error f =>
    rw [createDump_of_capture_error cfg env params fx1 fx2 req f hv hc]
    have := capture_ne_invalidArgument cfg env req.type name value
    rw [hc] at this
    intro h
    apply this
    simp at h
    simp [h]
  | ok ident =>
    cases hp : parseId ident with
    | error f =>
      rw [createDump_of_parseId_error cfg env params fx1 fx2 req ident f hv hc hp]
      have := parseId_ne_invalidArgument ident name value
      rw [hp] at this
      intro h
      apply this
      simp at h
      simp [h]
    | ok id =>
      rw [createDump_of_launch cfg env params fx1 fx2 req ident id hv hc hp]
      intro h
      have := launch_threw cfg env req ident id _ h
      cases this

theorem resolveType_hostboot (cfg : Config) :
    resolveType cfg TOKEN_HOSTBOOT = some (cfg.SBE_DUMP_TYPE_HOSTBOOT % 256) := by
  simp [resolveType]

theorem resolveType_hardware (cfg : Config) :
    resolveType cfg TOKEN_HARDWARE = some (cfg.SBE_DUMP_TYPE_HARDWARE % 256) := by
  have h : TOKEN_HARDWARE ≠ TOKEN_HOSTBOOT := by decide
  simp [resolveType, h]

theorem resolveType_sbe (cfg : Config) :
    resolveType cfg TOKEN_SBE = some (cfg.SBE_DUMP_TYPE_SBE % 256) := by
  have h1 : TOKEN_SBE ≠ TOKEN_HOSTBOOT := by decide
  have h2 : TOKEN_SBE ≠ TOKEN_HARDWARE := by decide
  simp [resolveType, h1, h2]

theorem resolveType_unknown (cfg : Config) (s : String) (h1 : s ≠ TOKEN_HOSTBOOT)
    (h2 : s ≠ TOKEN_HARDWARE) (h3 : s ≠ TOKEN_SBE) : resolveType cfg s = none := by
  simp [resolveType, h1, h2, h3]

/-! ## Lemmas on the hexadecimal rendering -/

theorem fixedHex_zero (k : Nat) : fixedHex k 0 = List.replicate k '0' := by
  induction k with
  | zero => rfl
  | succ k ih =>
    simp only [fixedHex, Nat.zero_div, ih, Nat.zero_mod]
    rw [List.replicate_succ']
    rfl

theorem toDigitsCore_pad (k : Nat) : ∀ (n fuel : Nat) (acc : List Char),
    n < 16 ^ (k + 1) → n < fuel →
    ∃ pre, Nat.toDigitsCore 16 fuel n acc = pre ++ acc ∧ pre.length ≤ k + 1 ∧
      List.replicate (k + 1 - pre.length) '0' ++ pre = fixedHex (k + 1) n := by
  induction k with
  | zero =>
    intro n fuel acc hn hf
    obtain ⟨f, rfl⟩ : ∃ f, fuel = f + 1 := ⟨fuel - 1, by omega⟩
    have h0 : n / 16 = 0 := by omega
    have h1 : n % 16 = n := by omega
    refine ⟨[Nat.digitChar n], ?_, by simp, ?_⟩
    · simp [Nat.toDigitsCore, h0, h1]
    · simp [fixedHex, h1]
  | succ k ih =>
    intro n fuel acc hn hf
    obtain ⟨f, rfl⟩ : ∃ f, fuel = f + 1 := ⟨fuel - 1, by omega⟩
    by_cases hsmall : n / 16 = 0
    · have h1 : n % 16 = n := by omega
      refine ⟨[Nat.digitChar n], ?_, by simp, ?_⟩
      · simp [Nat.toDigitsCore, hsmall, h1]
      · have : fixedHex (k + 1 + 1) n = fixedHex (k + 1) 0 ++ [Nat.digitChar n] := by
          rw [fixedHex, hsmall, h1]
        rw [this, fixedHex_zero]
        simp
    · have hq : n / 16 < 16 ^ (k + 1) := by
        rw [Nat.div_lt_iff_lt_mul (by norm_num)]
        calc n < 16 ^ (k + 1 + 1) := hn
          _ = 16 ^ (k + 1) * 16 := by ring
      have hqf : n / 16 < f := by omega
      obtain ⟨pre, hpre, hlen, hpad⟩ := ih (n / 16) f (Nat.digitChar (n % 16) :: acc) hq hqf
      refine ⟨pre ++ [Nat.digitChar (n % 16)], ?_, by simp; omega, ?_⟩
      · simp [Nat.toDigitsCore, hsmall, hpre]
      · have : fixedHex (k + 1 + 1) n = fixedHex (k + 1) (n / 16) ++ [Nat.digitChar (n % 16)] := by
          rw [fixedHex]
        rw [this, ← hpad]
        simp

theorem fixedHex_eight (n : Nat) :
    fixedHex 8 n = [7, 6, 5, 4, 3, 2, 1, 0].map (fun i => hexChar (n / 16 ^ i % 16)) := by
  simp [fixedHex, hexChar, Nat.div_div_eq_div_mul]

theorem setw8hex_eq_hex8 (n : Nat) (h : n ≤ 0xFFFFFFFF) : setw8hex n = hex8 n := by
  obtain ⟨pre, hpre, hlen, hpad⟩ := toDigitsCore_pad 7 n (n + 1) [] (by norm_num; omega) (by omega)
  unfold setw8hex hex8
  rw [← fixedHex_eight, ← hpad]
  simp only [Nat.toDigits, hpre, List.append_nil]

theorem isLowerHex_digitChar : ∀ d, d < 16 → isLowerHex (Nat.digitChar d) = true := by decide
theorem hexCharValue_digitChar : ∀ d, d < 16 → hexCharValue (Nat.digitChar d) = d := by decide

theorem hex8_length (n : Nat) : (hex8 n).length = 8 := by
  rfl

theorem hex8_lower (n : Nat) : ∀ c ∈ (hex8 n).data, isLowerHex c = true := by
  intro c hc
  simp only [hex8, List.asString, List.mem_map] at hc
  obtain ⟨i, _, rfl⟩ := hc
  exact isLowerHex_digitChar _ (Nat.mod_lt _ (by norm_num))

theorem hex8_value (n : Nat) (h : n ≤ 0xFFFFFFFF) : hexValue (hex8 n) = n := by
  simp only [hexValue, hex8, List.asString, List.map, List.foldl, hexChar]
  rw [hexCharValue_digitChar _ (Nat.mod_lt _ (by norm_num)),
    hexCharValue_digitChar _ (Nat.mod_lt _ (by norm_num)),
    hexCharValue_digitChar _ (Nat.mod_lt _ (by norm_num)),
    hexCharValue_digitChar _ (Nat.mod_lt _ (by norm_num)),
    hexCharValue_digitChar _ (Nat.mod_lt _ (by norm_num)),
    hexCharValue_digitChar _ (Nat.mod_lt _ (by norm_num)),
    hexCharValue_digitChar _ (Nat.mod_lt _ (by norm_num)),
    hexCharValue_digitChar _ (Nat.mod_lt _ (by norm_num))]
  norm_num
  omega

/-! ## Lemmas on the id extraction -/

theorem toDigitsCore_chars (b : Nat) : ∀ (fuel n : Nat) (acc : List Char),
    ∃ pre, Nat.toDigitsCore b fuel n acc = pre ++ acc ∧
      (∀ c ∈ pre, ∃ m, c = Nat.digitChar (m % b)) ∧ (0 < fuel → pre ≠ []) := by
  intro fuel
  induction fuel with
  | zero =>
    intro n acc
    exact ⟨[], by simp [Nat.toDigitsCore], by simp, by simp⟩
  | succ f ih =>
    intro n acc
    by_cases h : n / b = 0
    · refine ⟨[Nat.digitChar (n % b)], by simp [Nat.toDigitsCore, h], ?_, by simp⟩
      intro c hc
      simp at hc
      exact ⟨n, hc⟩
    · obtain ⟨pre, hpre, hch, _⟩ := ih (n / b) (Nat.digitChar (n % b) :: acc)
      refine ⟨pre ++ [Nat.digitChar (n % b)], by simp [Nat.toDigitsCore, h, hpre], ?_, by simp⟩
      intro c hc
      rcases List.mem_append.mp hc with h1 | h1
      · exact hch c h1
      · simp at h1
        exact ⟨n, h1⟩

theorem digitChar_ne_slash : ∀ d, d < 10 → Nat.digitChar d ≠ '/' := by decide

/-- The decimal rendering of a natural number is non-empty and contains no `/`. -/
theorem toString_nat_chars (n : Nat) :
    (toString n).data ≠ [] ∧ ∀ c ∈ (toString n).data, c ≠ '/' := by
  obtain ⟨pre, hpre, hch, hne⟩ := toDigitsCore_chars 10 (n + 1) n []
  have hdata : (toString n).data = pre := by
    show Nat.toDigits 10 n = pre
    simpa [Nat.toDigits] using hpre
  rw [hdata]
  refine ⟨hne (by omega), ?_⟩
  intro c hc
  obtain ⟨m, rfl⟩ := hch c hc
  exact digitChar_ne_slash _ (Nat.mod_lt _ (by norm_num))

theorem toString_int_ofNat (n : Nat) : toString (n : Int) = toString n := rfl

/-- Joining a relative component to a path that has a filename inserts one separator. -/
theorem pathAppend_relative (lhs p : String) (h1 : lhs.data ≠ [])
    (h2 : lhs.data.getLast? ≠ some '/') (h3 : p.data.head? ≠ some '/') :
    pathAppend lhs p = lhs ++ "/" ++ p := by
  simp [pathAppend, h1, h2, h3]

/-- The collection directory in closed form, for a collection root that is non-empty and
does not end in a separator. -/
theorem collectionDir_eq (cfg : Config) (t n : Nat)
    (h1 : (dumpInfoAt cfg t).dumpCollectionPath.data ≠ [])
    (h2 : (dumpInfoAt cfg t).dumpCollectionPath.data.getLast? ≠ some '/') :
    collectionDir cfg t (n : Int) =
      (dumpInfoAt cfg t).dumpCollectionPath ++ "/" ++ toString n ++ "/" ++ "plat_dump" := by
  obtain ⟨hne, hch⟩ := toString_nat_chars n
  have hhead : (toString n).data.head? ≠ some '/' := by
    intro h
    exact hch '/' (List.mem_of_mem_head? h) rfl
  have hlast : ((dumpInfoAt cfg t).dumpCollectionPath ++ "/" ++ toString n).data.getLast? ≠
      some '/' := by
    intro h
    have hmem := List.mem_of_getLast?_eq_some h
    simp only [String.data_append, List.getLast?_append_of_ne_nil _ hne] at h
    exact hch '/' (List.mem_of_getLast?_eq_some h) rfl
  unfold collectionDir
  rw [toString_int_ofNat, pathAppend_relative _ _ h1 h2 hhead,
    pathAppend_relative _ _ (by simp [hne]) hlast (by decide)]
  rfl

theorem parseId_range (p : String) (v : Int) (h : parseId p = .ok v) :
    -2147483648 ≤ v ∧ v ≤ 2147483647 := by
  unfold parseId at h
  split at h
  · cases h
  · exact stoi_range _ v h

/-- The table entries of a well-formed configuration. -/
theorem dumpInfoAt_wellFormed (cfg : Config) (hcfg : cfg.WellFormed) :
    dumpInfoAt cfg cfg.SBE_DUMP_TYPE_HOSTBOOT =
      ⟨cfg.HB_DUMP_DBUS_OBJPATH, cfg.HB_DUMP_COLLECTION_PATH⟩ ∧
    dumpInfoAt cfg cfg.SBE_DUMP_TYPE_HARDWARE =
      ⟨cfg.HW_DUMP_DBUS_OBJPATH, cfg.HW_DUMP_COLLECTION_PATH⟩ ∧
    dumpInfoAt cfg cfg.SBE_DUMP_TYPE_SBE =
      ⟨cfg.SBE_DUMP_DBUS_OBJPATH, cfg.SBE_DUMP_COLLECTION_PATH⟩ := by
  obtain ⟨b1, b2, b3, d1, d2, d3⟩ := hcfg
  have e1 : (cfg.SBE_DUMP_TYPE_HARDWARE == cfg.SBE_DUMP_TYPE_HOSTBOOT) = false :=
    beq_false_of_ne (Ne.symm d1)
  have e2 : (cfg.SBE_DUMP_TYPE_SBE == cfg.SBE_DUMP_TYPE_HOSTBOOT) = false :=
    beq_false_of_ne (Ne.symm d2)
  have e3 : (cfg.SBE_DUMP_TYPE_SBE == cfg.SBE_DUMP_TYPE_HARDWARE) = false :=
    beq_false_of_ne (Ne.symm d3)
  simp [dumpInfoAt, dumpInfo, Nat.mod_eq_of_lt b1, Nat.mod_eq_of_lt b2, Nat.mod_eq_of_lt b3,
    List.lookup, e1, e2, e3]

/-- Validation of a request with a recognised token and an acceptable failing unit, where
`f` is `0xFF` for Hostboot and the supplied unit for Hardware and SBE. -/
theorem validate_accepts (cfg : Config) (hcfg : cfg.WellFormed) (params : DumpCreateParams)
    (tok : String) (ev : ParamValue) (t f : Nat)
    (hd : params.lookup (convertCreateParametersToString .DumpType) = some (.str tok))
    (hr : resolveType cfg tok = some t)
    (he : params.lookup (convertCreateParametersToString .ErrorLogId) = some ev)
    (hu : (tok = TOKEN_HOSTBOOT ∧ f = 0xFF) ∨
      ((tok = TOKEN_HARDWARE ∨ tok = TOKEN_SBE) ∧
        params.lookup (convertCreateParametersToString .FailingUnitId) = some (.u64 f) ∧
        f ≤ 0x20)) :
    validate cfg params =
      ((readErrorId ev).2 ++ checkErrorId (readErrorId ev).1,
       .ok ⟨setw8hex (readErrorId ev).1, t, f⟩) := by
  obtain ⟨b1, b2, b3, d1, d2, d3⟩ := hcfg
  rcases hu with ⟨rfl, rfl⟩ | ⟨htok, hf, hle⟩
  · rw [resolveType_hostboot, Nat.mod_eq_of_lt b1] at hr
    cases hr
    exact validate_without_unit cfg params _ ev _ hd he
      (by rw [resolveType_hostboot, Nat.mod_eq_of_lt b1]) (by
        rintro (h | h)
        · exact d1 h
        · exact d2 h)
  · have ht : t = cfg.SBE_DUMP_TYPE_HARDWARE ∨ t = cfg.SBE_DUMP_TYPE_SBE := by
      rcases htok with rfl | rfl
      · rw [resolveType_hardware, Nat.mod_eq_of_lt b2] at hr
        cases hr
        exact Or.inl rfl
      · rw [resolveType_sbe, Nat.mod_eq_of_lt b3] at hr
        cases hr
        exact Or.inr rfl
    have h := validate_with_unit cfg params tok ev t hd he hr ht
    have hf2 : ¬ f > MAX_FAILING_UNIT := by
      unfold MAX_FAILING_UNIT
      omega
    rw [hf] at h
    simpa only [hf2, if_false] using h

/-! ## Lemmas on the registered record and on the callback -/

/-- C1 (amended): when the DumpType entry is absent, or is a string other than the three
recognised tokens while the ErrorLogId entry is present (whatever the other entries
are), `createDump` fails with `InvalidArgument` whose `ARGUMENT_NAME` is `DUMP_TYPE`. -/
theorem createDump_rejects_dumpType (cfg : Config) (env : Env) (params : DumpCreateParams)
    (h : params.lookup (convertCreateParametersToString .DumpType) = none ∨
      ∃ s ev, params.lookup (convertCreateParametersToString .DumpType) = some (.str s) ∧
        s ≠ TOKEN_HOSTBOOT ∧ s ≠ TOKEN_HARDWARE ∧ s ≠ TOKEN_SBE ∧
        params.lookup (convertCreateParametersToString .ErrorLogId) = some ev) :
    ∃ v, (createDump cfg env params).2 = .threw (.invalidArgument "DUMP_TYPE" v) := by
  rcases h with h | ⟨s, ev, hs, h1, h2, h3, he⟩
  · exact ⟨"MISSING", by
      rw [createDump_of_validate_error cfg env params _ _ (validate_dumpType_absent cfg params h)]⟩
  · exact ⟨s, by
      rw [createDump_of_validate_error cfg env params _ _
        (validate_unknown_token cfg params s ev hs he (resolveType_unknown cfg s h1 h2 h3))]⟩

/-- Witness of C1 (amended): an unknown token next to an error log id. -/
theorem createDump_rejects_dumpType_witness :
    ∃ v, (createDump exampleConfig (exampleEnv "" 0)
      [(convertCreateParametersToString .DumpType, .str "com.ibm.Dump.Create.DumpType.Unknown"),
       (convertCreateParametersToString .ErrorLogId, .u64 1)]).2 =
      .threw (.invalidArgument "DUMP_TYPE" v) :=
  createDump_rejects_dumpType exampleConfig (exampleEnv "" 0) _
    (Or.inr ⟨"com.ibm.Dump.Create.DumpType.Unknown", .u64 1, by decide, by decide, by decide,
      by decide, by decide⟩)

/-- C1 (counterexample): a request whose DumpType is an unrecognised string and which has
no ErrorLogId entry fails with `InvalidArgument(ERROR_LOG_ID, MISSING)`; the argument
name is not `DUMP_TYPE`. -/
theorem createDump_unknown_type_reports_errorLogId :
    (createDump exampleConfig (exampleEnv "" 0)
      [(convertCreateParametersToString .DumpType,
        .str "com.ibm.Dump.Create.DumpType.Unknown")]).2 =
      .threw (.invalidArgument "ERROR_LOG_ID" "MISSING") ∧
    ¬ ∃ v, (createDump exampleConfig (exampleEnv "" 0)
      [(convertCreateParametersToString .DumpType,
        .str "com.ibm.Dump.Create.DumpType.Unknown")]).2 =
      .threw (.invalidArgument "DUMP_TYPE" v) := by
  have h : (createDump exampleConfig (exampleEnv "" 0)
      [(convertCreateParametersToString .DumpType,
        .str "com.ibm.Dump.Create.DumpType.Unknown")]).2 =
      .threw (.invalidArgument "ERROR_LOG_ID" "MISSING") := by decide
  refine ⟨h, ?_⟩
  rintro ⟨v, hv⟩
  rw [h] at hv
  simp at hv

/-- C2 (failing input): a request whose DumpType entry holds an integer and which has no
ErrorLogId entry ends in `std::bad_variant_access`, before any effect, and not in
`InvalidArgument(ERROR_LOG_ID, MISSING)`. -/
theorem createDump_integer_dumpType_bad_variant_access :
    createDump exampleConfig (exampleEnv "" 0)
      [(convertCreateParametersToString .DumpType, .u64 1)] = ([], .threw .badVariantAccess) := by
  decide

/-- C3: whenever `createDump` fails with `InvalidArgument` (any argument name and value),
the effects performed before the failure contain no capture call, no BMC dump request,
no `fork` and no child registration; they are error-log reports only. -/
theorem createDump_invalidArgument_no_side_effect (cfg : Config) (env : Env)
    (params : DumpCreateParams) (name value : String)
    (h : (createDump cfg env params).2 = .threw (.invalidArgument name value)) :
    ∀ e ∈ (createDump cfg env params).1, e.isSideEffect = false ∧ ∃ f, e = .report f := by
  rcases hv : validate cfg params with ⟨fx, r⟩
  cases r with
  | error f =>
    rw [createDump_of_validate_error cfg env params fx f hv]
    intro e he
    have := validate_effects cfg params e (by rw [hv]; exact he)
    obtain ⟨g, rfl⟩ := this
    exact ⟨rfl, g, rfl⟩
  | ok req =>
    exact absurd h (createDump_valid_ne_invalidArgument cfg env params fx req hv name value)

/-- Witness of C3: a Hardware request with a non-integer error log id and failing unit 33
is rejected after one error-log report. -/
theorem createDump_invalidArgument_no_side_effect_witness :
    (createDump exampleConfig (exampleEnv (hardwareEntry "7") 0)
      (hardwareRequest (.str "abc") (.u64 33))) =
      ([.report (.invalidArgument "ERROR_LOG_ID" "INVALID INPUT")],
       .threw (.invalidArgument "FAILING_UNIT_ID" "33")) ∧
    ∀ e ∈ (createDump exampleConfig (exampleEnv (hardwareEntry "7") 0)
      (hardwareRequest (.str "abc") (.u64 33))).1, e.isSideEffect = false ∧ ∃ f, e = .report f :=
  ⟨by decide,
   createDump_invalidArgument_no_side_effect exampleConfig (exampleEnv (hardwareEntry "7") 0)
     (hardwareRequest (.str "abc") (.u64 33)) "FAILING_UNIT_ID" "33" (by decide)⟩

/-- C4 (failing input): for the Hardware request with ErrorLogId `0x100000000` the request
goes on, an error-log entry is written, and the error-log id handed to
`prepareCollection` is the nine-character "100000000", not "00000000". -/
theorem createDump_large_errorLogId_not_clamped :
    createDump exampleConfig (exampleEnv (hardwareEntry "7") 0)
      (hardwareRequest (.u64 0x100000000) (.u64 3)) =
    ([.report (.invalidArgument "ERROR_LOG_ID" "4294967296"),
      .getService "xyz.openbmc_project.Dump.Create" "/xyz/openbmc_project/dump/hardware",
      .methodCall "xyz.openbmc_project.Dump.Manager" "/xyz/openbmc_project/dump/hardware"
        "xyz.openbmc_project.Dump.Create" "CreateDump" [.createParams []],
      .requestBMCDump, .fork,
      .prepareCollection "/var/lib/phosphor-debug-collector/hardwaredump/7/plat_dump"
        "100000000",
      .execl "/usr/bin/dump-collect"
        ["dump-collect", "--type", "1", "--id", "7", "--path",
         "/var/lib/phosphor-debug-collector/hardwaredump/7/plat_dump", "--failingunit", "3"]],
     .execed) := by
  decide

/-- C5: for a request with a recognised type, a present ErrorLogId and an acceptable
failing unit, let `n` be the supplied ErrorLogId when it is an integer `≤ 0xFFFFFFFF` and
`0` when it is not integer-typed. Validation succeeds with the error-log id `hex8 n`, the
request is not rejected as an invalid argument, `hex8 n` has exactly 8 characters of
`[0-9a-f]` and hexadecimal value `n`, and in the child process `hex8 n` is the id handed
to `prepareCollection`. -/
theorem createDump_elogId_hex8 (cfg : Config) (env : Env) (params : DumpCreateParams)
    (tok : String) (ev : ParamValue) (t n : Nat)
    (hd : params.lookup (convertCreateParametersToString .DumpType) = some (.str tok))
    (hr : resolveType cfg tok = some t)
    (he : params.lookup (convertCreateParametersToString .ErrorLogId) = some ev)
    (hn : (ev = .u64 n ∧ n ≤ 0xFFFFFFFF) ∨ ((∃ s, ev = .str s) ∧ n = 0))
    (hu : ¬ (t = cfg.SBE_DUMP_TYPE_HARDWARE ∨ t = cfg.SBE_DUMP_TYPE_SBE) ∨
      ∃ f, params.lookup (convertCreateParametersToString .FailingUnitId) = some (.u64 f) ∧
        f ≤ 0x20) :
    (∃ fx f, validate cfg params = (fx, .ok ⟨hex8 n, t, f⟩)) ∧
    (∀ name value, (createDump cfg env params).2 ≠ .threw (.invalidArgument name value)) ∧
    (hex8 n).length = 8 ∧ (∀ c ∈ (hex8 n).data, isLowerHex c = true) ∧ hexValue (hex8 n) = n ∧
    (∀ svc ident id,
      env.getService DUMP_CREATE_IFACE (dumpInfoAt cfg t).dumpPath = .ok svc →
      env.call svc (dumpInfoAt cfg t).dumpPath DUMP_CREATE_IFACE "CreateDump" = .ok ident →
      parseId ident = .ok id → env.fork = 0 →
      Effect.prepareCollection (collectionDir cfg t id) (hex8 n) ∈ (createDump cfg env params).1 ∧
      ∀ p e, Effect.prepareCollection p e ∈ (createDump cfg env params).1 → e = hex8 n) := by
  have hle : n ≤ 0xFFFFFFFF := by
    rcases hn with ⟨_, h⟩ | ⟨_, h⟩
    · exact h
    · omega
  have hid : setw8hex (readErrorId ev).1 = hex8 n := by
    rcases hn with ⟨rfl, h⟩ | ⟨⟨s, rfl⟩, rfl⟩
    · exact setw8hex_eq_hex8 n h
    · exact setw8hex_eq_hex8 0 (by norm_num)
  have hval : ∃ fx f, validate cfg params = (fx, .ok ⟨hex8 n, t, f⟩) := by
    by_cases ht : t = cfg.SBE_DUMP_TYPE_HARDWARE ∨ t = cfg.SBE_DUMP_TYPE_SBE
    · obtain ⟨f, hf, hf32⟩ := hu.resolve_left (not_not.mpr ht)
      have h := validate_with_unit cfg params tok ev t hd he hr ht
      have hf2 : ¬ f > MAX_FAILING_UNIT := by
        unfold MAX_FAILING_UNIT
        omega
      rw [hf] at h
      simp only [hf2, if_false, hid] at h
      exact ⟨_, f, h⟩
    · have h := validate_without_unit cfg params tok ev t hd he hr ht
      rw [hid] at h
      exact ⟨_, _, h⟩
  obtain ⟨fx, f, hv⟩ := hval
  refine ⟨⟨fx, f, hv⟩, ?_, hex8_length n, hex8_lower n, hex8_value n hle, ?_⟩
  · exact fun name value => createDump_valid_ne_invalidArgument cfg env params fx _ hv name value
  · intro svc ident id hs hc hp hfork
    have hcap := capture_ok cfg env t svc ident hs hc
    have hcd := createDump_of_launch cfg env params fx _ ⟨hex8 n, t, f⟩ ident id hv hcap hp
    rw [hcd]
    constructor
    · simp [launch, hfork]
    · intro p e hmem
      simp only [List.mem_append] at hmem
      rcases hmem with (hmem | hmem) | hmem
      · obtain ⟨g, hg⟩ := validate_effects cfg params _ (by rw [hv]; exact hmem)
        cases hg
      · simp at hmem
      · simp [launch, hfork] at hmem
        exact hmem.2

/-- Witness of C5: the Hardware request with ErrorLogId 4660 hands "00001234" to
`prepareCollection`, and the same request with the ErrorLogId "abc" passes validation
with the id "00000000". -/
theorem createDump_elogId_hex8_witness :
    hex8 4660 = "00001234" ∧
    (∃ fx f, validate exampleConfig (hardwareRequest (.str "abc") (.u64 3)) =
      (fx, .ok ⟨"00000000", 1, f⟩)) ∧
    Effect.prepareCollection "/var/lib/phosphor-debug-collector/hardwaredump/7/plat_dump"
      "00001234" ∈
      (createDump exampleConfig (exampleEnv (hardwareEntry "7") 0)
        (hardwareRequest (.u64 4660) (.u64 3))).1 :=
  ⟨by decide,
   (createDump_elogId_hex8 exampleConfig (exampleEnv (hardwareEntry "7") 0)
      (hardwareRequest (.str "abc") (.u64 3)) TOKEN_HARDWARE (.str "abc") 1 0
      (by decide) (by decide) (by decide) (Or.inr ⟨⟨"abc", rfl⟩, rfl⟩)
      (Or.inr ⟨3, by decide, by decide⟩)).1,
   ((createDump_elogId_hex8 exampleConfig (exampleEnv (hardwareEntry "7") 0)
      (hardwareRequest (.u64 4660) (.u64 3)) TOKEN_HARDWARE (.u64 4660) 1 4660
      (by decide) (by decide) (by decide) (Or.inl ⟨rfl, by decide⟩)
      (Or.inr ⟨3, by decide, by decide⟩)).2.2.2.2.2
      "xyz.openbmc_project.Dump.Manager" (hardwareEntry "7") 7 rfl rfl rfl rfl).1⟩

/-- C6: with a recognised DumpType token and a present ErrorLogId, `createDump` fails
with `InvalidArgument(FAILING_UNIT_ID, v)` exactly when the type is Hardware or SBE and
the FailingUnitId is absent (`v = "MISSING"`), not integer-typed (`v = "INVALID INPUT"`),
or an integer above `0x20` (`v` its decimal rendering). Hence `0x20` is accepted and a
Hostboot request never fails on its FailingUnitId entry. -/
theorem createDump_failingUnit_iff (cfg : Config) (hcfg : cfg.WellFormed) (env : Env)
    (params : DumpCreateParams) (tok : String) (ev : ParamValue) (v : String)
    (hd : params.lookup (convertCreateParametersToString .DumpType) = some (.str tok))
    (htok : tok = TOKEN_HOSTBOOT ∨ tok = TOKEN_HARDWARE ∨ tok = TOKEN_SBE)
    (he : params.lookup (convertCreateParametersToString .ErrorLogId) = some ev) :
    (createDump cfg env params).2 = .threw (.invalidArgument "FAILING_UNIT_ID" v) ↔
      (tok = TOKEN_HARDWARE ∨ tok = TOKEN_SBE) ∧
      ((params.lookup (convertCreateParametersToString .FailingUnitId) = none ∧
          v = "MISSING") ∨
        ((∃ s, params.lookup (convertCreateParametersToString .FailingUnitId) = some (.str s)) ∧
          v = "INVALID INPUT") ∨
        (∃ n, params.lookup (convertCreateParametersToString .FailingUnitId) = some (.u64 n) ∧
          n > 0x20 ∧ v = toString n)) := by
  obtain ⟨b1, b2, b3, d1, d2, d3⟩ := hcfg
  have t1 : TOKEN_HOSTBOOT ≠ TOKEN_HARDWARE := by decide
  have t2 : TOKEN_HOSTBOOT ≠ TOKEN_SBE := by decide
  have key : ∀ t, resolveType cfg tok = some t →
      (t = cfg.SBE_DUMP_TYPE_HARDWARE ∨ t = cfg.SBE_DUMP_TYPE_SBE) →
      (tok = TOKEN_HARDWARE ∨ tok = TOKEN_SBE) →
      ((createDump cfg env params).2 = .threw (.invalidArgument "FAILING_UNIT_ID" v) ↔
      (tok = TOKEN_HARDWARE ∨ tok = TOKEN_SBE) ∧
      ((params.lookup (convertCreateParametersToString .FailingUnitId) = none ∧
          v = "MISSING") ∨
        ((∃ s, params.lookup (convertCreateParametersToString .FailingUnitId) = some (.str s)) ∧
          v = "INVALID INPUT") ∨
        (∃ n, params.lookup (convertCreateParametersToString .FailingUnitId) = some (.u64 n) ∧
          n > 0x20 ∧ v = toString n))) := by
    intro t hr ht htk
    have hval := validate_with_unit cfg params tok ev t hd he hr ht
    cases hf : params.lookup (convertCreateParametersToString .FailingUnitId) with
    | none =>
      rw [hf] at hval
      rw [createDump_of_validate_error cfg env params _ _ hval]
      simp [htk, eq_comm]
    | some fv =>
      cases fv with
      | str s =>
        rw [hf] at hval
        rw [createDump_of_validate_error cfg env params _ _ hval]
        simp [htk, eq_comm]
      | u64 n =>
        rw [hf] at hval
        by_cases hn : n > MAX_FAILING_UNIT
        · simp only [hn, if_true] at hval
          rw [createDump_of_validate_error cfg env params _ _ hval]
          have hn2 : 32 < n := hn
          simp [htk, eq_comm, hn2]
        · simp only [hn, if_false] at hval
          have hn2 : ¬ 32 < n := hn
          have := createDump_valid_ne_invalidArgument cfg env params _ _ hval "FAILING_UNIT_ID" v
          simp [this, hn2]
  rcases htok with rfl | rfl | rfl
  · have hr := resolveType_hostboot cfg
    rw [Nat.mod_eq_of_lt b1] at hr
    have hval := validate_without_unit cfg params _ ev _ hd he hr (by
      rintro (h | h)
      · exact d1 h
      · exact d2 h)
    have := createDump_valid_ne_invalidArgument cfg env params _ _ hval "FAILING_UNIT_ID" v
    simp [this, t1, t2]
  · have hr := resolveType_hardware cfg
    rw [Nat.mod_eq_of_lt b2] at hr
    exact key _ hr (Or.inl rfl) (Or.inl rfl)
  · have hr := resolveType_sbe cfg
    rw [Nat.mod_eq_of_lt b3] at hr
    exact key _ hr (Or.inr rfl) (Or.inr rfl)

/-- Witness of C6: a Hardware request with failing unit 33 is rejected with value "33". -/
theorem createDump_failingUnit_iff_witness :
    (createDump exampleConfig (exampleEnv (hardwareEntry "7") 0)
        (hardwareRequest (.u64 4660) (.u64 33))).2 =
      .threw (.invalidArgument "FAILING_UNIT_ID" "33") ∧
    (createDump exampleConfig (exampleEnv (hardwareEntry "7") 0)
        (hardwareRequest (.u64 4660) (.u64 32))).2 = .execed :=
  ⟨(createDump_failingUnit_iff exampleConfig (by decide) (exampleEnv (hardwareEntry "7") 0)
      (hardwareRequest (.u64 4660) (.u64 33)) TOKEN_HARDWARE (.u64 4660) "33"
      (by decide) (by decide) (by decide)).mpr
      ⟨Or.inl rfl, Or.inr (Or.inr ⟨33, by decide, by decide, by decide⟩)⟩,
   by decide⟩

/-- C9: for a request that passes validation with resolved type code `t` and whose capture
identity parses to the numeric id `n`, the child process prepares the collection directory
and then calls `execl` on `/usr/bin/dump-collect` with exactly the arguments
`--type dec(t) --id dec(n) --path dir --failingunit dec(f)`, where `f` is the supplied
FailingUnitId for Hardware and SBE and 255 for Hostboot whatever FailingUnitId holds, `n`
fits 32 bits, and `dir` joins the collection root of `t`, `dec(n)` and `plat_dump`; for a
root that is non-empty and has no trailing separator `dir` is `root/dec(n)/plat_dump`.
No other `execl` happens. -/
theorem createDump_collector_argv (cfg : Config) (hcfg : cfg.WellFormed) (env : Env)
    (params : DumpCreateParams) (tok : String) (ev : ParamValue) (t n f : Nat)
    (svc ident : String)
    (hd : params.lookup (convertCreateParametersToString .DumpType) = some (.str tok))
    (hr : resolveType cfg tok = some t)
    (he : params.lookup (convertCreateParametersToString .ErrorLogId) = some ev)
    (hu : (tok = TOKEN_HOSTBOOT ∧ f = 0xFF) ∨
      ((tok = TOKEN_HARDWARE ∨ tok = TOKEN_SBE) ∧
        params.lookup (convertCreateParametersToString .FailingUnitId) = some (.u64 f) ∧
        f ≤ 0x20))
    (hs : env.getService DUMP_CREATE_IFACE (dumpInfoAt cfg t).dumpPath = .ok svc)
    (hc : env.call svc (dumpInfoAt cfg t).dumpPath DUMP_CREATE_IFACE "CreateDump" = .ok ident)
    (hp : parseId ident = .ok (n : Int))
    (hfork : env.fork = 0) :
    (∃ fx elogId, (createDump cfg env params).1 =
        fx ++ [.prepareCollection (collectionDir cfg t n) elogId,
          .execl "/usr/bin/dump-collect"
            ["dump-collect", "--type", toString t, "--id", toString n,
             "--path", collectionDir cfg t n, "--failingunit", toString f]] ∧
        ∀ e ∈ fx, ∀ p a, e ≠ .execl p a) ∧
    (createDump cfg env params).2 = (if env.execl then .execed else .exited 1) ∧
    n < 4294967296 ∧
    collectionDir cfg t n =
      pathAppend (pathAppend (dumpInfoAt cfg t).dumpCollectionPath (toString n)) "plat_dump" ∧
    ((dumpInfoAt cfg t).dumpCollectionPath.data ≠ [] →
      (dumpInfoAt cfg t).dumpCollectionPath.data.getLast? ≠ some '/' →
      collectionDir cfg t n =
        (dumpInfoAt cfg t).dumpCollectionPath ++ "/" ++ toString n ++ "/" ++ "plat_dump") ∧
    (tok = TOKEN_HOSTBOOT → t = cfg.SBE_DUMP_TYPE_HOSTBOOT ∧
      (dumpInfoAt cfg t).dumpCollectionPath = cfg.HB_DUMP_COLLECTION_PATH) ∧
    (tok = TOKEN_HARDWARE → t = cfg.SBE_DUMP_TYPE_HARDWARE ∧
      (dumpInfoAt cfg t).dumpCollectionPath = cfg.HW_DUMP_COLLECTION_PATH) ∧
    (tok = TOKEN_SBE → t = cfg.SBE_DUMP_TYPE_SBE ∧
      (dumpInfoAt cfg t).dumpCollectionPath = cfg.SBE_DUMP_COLLECTION_PATH) := by
  have hv := validate_accepts cfg hcfg params tok ev t f hd hr he hu
  have hcap := capture_ok cfg env t svc ident hs hc
  have hcd := createDump_of_launch cfg env params _ _ ⟨_, t, f⟩ ident n hv hcap hp
  have hinfo := dumpInfoAt_wellFormed cfg hcfg
  obtain ⟨b1, b2, b3, _, _, _⟩ := hcfg
  refine ⟨?_, ?_, ?_, ?_, ?_, ?_, ?_, ?_⟩
  · refine ⟨(readErrorId ev).2 ++ checkErrorId (readErrorId ev).1 ++
        [.getService DUMP_CREATE_IFACE (dumpInfoAt cfg t).dumpPath,
         .methodCall svc (dumpInfoAt cfg t).dumpPath DUMP_CREATE_IFACE "CreateDump"
           [.createParams []]] ++ [.requestBMCDump, .fork],
      setw8hex (readErrorId ev).1, ?_, ?_⟩
    · rw [hcd]
      simp [launch, hfork, collectorArgv, toString_int_ofNat]
    · intro e hmem p a hea
      subst hea
      simp only [List.mem_append] at hmem
      rcases hmem with ((hmem | hmem) | hmem) | hmem
      · have := validate_effects cfg params _ (by rw [hv]; exact List.mem_append_left _ hmem)
        obtain ⟨g, hg⟩ := this
        cases hg
      · have := validate_effects cfg params _ (by rw [hv]; exact List.mem_append_right _ hmem)
        obtain ⟨g, hg⟩ := this
        cases hg
      · simp at hmem
      · simp at hmem
  · rw [hcd]
    simp [launch, hfork]
  · have := (parseId_range ident n hp).2
    omega
  · unfold collectionDir
    rw [toString_int_ofNat]
    rfl
  · exact collectionDir_eq cfg t n
  · rintro rfl
    rw [resolveType_hostboot, Nat.mod_eq_of_lt b1] at hr
    cases hr
    exact ⟨rfl, by rw [hinfo.1]⟩
  · rintro rfl
    rw [resolveType_hardware, Nat.mod_eq_of_lt b2] at hr
    cases hr
    exact ⟨rfl, by rw [hinfo.2.1]⟩
  · rintro rfl
    rw [resolveType_sbe, Nat.mod_eq_of_lt b3] at hr
    cases hr
    exact ⟨rfl, by rw [hinfo.2.2]⟩

/-- Witness of C9: Hardware, id 7, unit 3. -/
theorem createDump_collector_argv_witness :
    ∃ fx elogId, (createDump exampleConfig (exampleEnv (hardwareEntry "7") 0)
        (hardwareRequest (.u64 4660) (.u64 3))).1 =
      fx ++ [.prepareCollection "/var/lib/phosphor-debug-collector/hardwaredump/7/plat_dump"
          elogId,
        .execl "/usr/bin/dump-collect"
          ["dump-collect", "--type", "1", "--id", "7", "--path",
           "/var/lib/phosphor-debug-collector/hardwaredump/7/plat_dump",
           "--failingunit", "3"]] ∧
      ∀ e ∈ fx, ∀ p a, e ≠ .execl p a :=
  (createDump_collector_argv exampleConfig (by decide) (exampleEnv (hardwareEntry "7") 0)
    (hardwareRequest (.u64 4660) (.u64 3)) TOKEN_HARDWARE (.u64 4660) 1 7 3
    "xyz.openbmc_project.Dump.Manager" (hardwareEntry "7")
    (by decide) (by decide) (by decide) (Or.inr ⟨Or.inl rfl, by decide, by decide⟩)
    rfl rfl rfl rfl).1

end openpower.dump
